import Mathlib

/-!
Verification of the core data-model and view logic of django-crowdsourcing
(`crowdsourcing/models.py`, `crowdsourcing/views.py`), as a shallow embedding.

Modelling conventions:
- `datetime` values are modelled as integers (timestamps); `null`able datetime
  columns as `Option Int`.  A Python `datetime` object is always truthy, so
  `if self.ends_at:` is `Option.isSome`.
- Python runtime values that flow through the untyped `Answer` columns are
  modelled by the inductive `PyValue`; IEEE floats are modelled as rationals.
- Database tables are modelled as lists of rows; a Django queryset `filter`
  is `List.filter`, and `.none()` is `[]`.
- `ChoiceEnum` (from `crowdsourcing/util.py`, not shipped here) only assigns
  distinct codes to the symbolic names (`ARCHIVE_POLICY_CHOICES.NEVER`,
  `OPTION_TYPE_CHOICES.BOOLEAN`, ...); it is modelled by the inductives
  `ArchivePolicy` and `OptionType`, whose constructors are exactly the
  distinct codes the models compare against.
-/

namespace Crowdsourcing

/-- Python runtime values as they flow through the answer columns. -/
inductive PyValue where
  | none
  | bool (b : Bool)
  | int (n : Int)
  | float (x : Rat)
  | str (s : String)
deriving DecidableEq, Repr

/-- Python exceptions that the embedded code can raise. -/
inductive PyError where
  | typeError
  | valueError
  | attributeError
deriving DecidableEq, Repr

/-- Python truthiness (`bool(v)`) on the modelled values. -/
def PyValue.truthy : PyValue → Bool
  | .none => false
  | .bool b => b
  | .int n => n != 0
  | .float x => x != 0
  | .str s => s != ""

/-- Truncation toward zero, the rounding of Python `int(float)`. -/
def ratTrunc (x : Rat) : Int :=
  if 0 ≤ x then ⌊x⌋ else ⌈x⌉

/-- Strip leading and trailing whitespace from a character list (the
whitespace tolerance of Python's numeric string conversions). -/
def trimChars (cs : List Char) : List Char :=
  ((cs.dropWhile Char.isWhitespace).reverse.dropWhile Char.isWhitespace).reverse

/-- Accumulate a run of decimal digits into a natural number; any non-digit
character fails the whole parse. -/
def digitsAux (acc : Nat) : List Char → Option Nat
  | [] => some acc
  | c :: cs =>
    if c.isDigit then digitsAux (acc * 10 + (c.toNat - Char.toNat '0')) cs
    else Option.none

/-- A non-empty run of decimal digits read as a natural number. -/
def digitsToNat (cs : List Char) : Option Nat :=
  match cs with
  | [] => Option.none
  | _ => digitsAux 0 cs

/-- Split a character list at the first `.`, keeping the rest verbatim. -/
def splitDot : List Char → List Char × Option (List Char)
  | [] => ([], Option.none)
  | c :: rest =>
    if c = '.' then ([], some rest)
    else
      let p := splitDot rest
      (c :: p.1, p.2)

/-- A run of decimal digits read as a natural number, the empty run reading
as 0 (the two sides of a decimal point, as in `"1."` and `".5"`). -/
def digitsToNatZ (cs : List Char) : Option Nat :=
  if cs.isEmpty then some 0 else digitsAux 0 cs

/-- An unsigned decimal literal `digits [. digits]` read as a rational. -/
def decimalToRat (cs : List Char) : Option Rat :=
  match splitDot cs with
  | (ip, Option.none) => (digitsToNat ip).map (fun n => (n : Rat))
  | (ip, some fp) =>
    if ip.isEmpty && fp.isEmpty then Option.none
    else
      match digitsToNatZ ip, digitsToNatZ fp with
      | some i, some f =>
        some ((i : Rat) + (f : Rat) / ((10 : Rat) ^ fp.length))
      | _, _ => Option.none

/-- Python `int(s)` on a string: whitespace-stripped optional sign followed by
decimal digits; anything else raises `ValueError` (modelled as `Option.none`). -/
def pyIntOfStr (s : String) : Option Int :=
  match trimChars s.data with
  | '-' :: cs => (digitsToNat cs).map (fun n => -(n : Int))
  | '+' :: cs => (digitsToNat cs).map (fun n => (n : Int))
  | cs => (digitsToNat cs).map (fun n => (n : Int))

/-- Python `float(s)` on a string: whitespace-stripped optional sign followed
by a plain decimal literal.  (Exponent forms, `inf` and `nan` fall outside the
rational model of floats.) -/
def pyFloatOfStr (s : String) : Option Rat :=
  match trimChars s.data with
  | '-' :: cs => (decimalToRat cs).map (fun x => -x)
  | '+' :: cs => decimalToRat cs
  | cs => decimalToRat cs

/-- Python `int(v)`: identity on ints, 0/1 on bools, truncation on floats,
parsing on strings, `TypeError` on `None` (modelled as `Option.none`). -/
def pyInt : PyValue → Option Int
  | .bool b => some (if b then 1 else 0)
  | .int n => some n
  | .float x => some (ratTrunc x)
  | .str s => pyIntOfStr s
  | .none => Option.none

/-- Python `float(v)`: identity on floats, exact embedding of ints and bools,
parsing on strings, `TypeError` on `None` (modelled as `Option.none`). -/
def pyFloat : PyValue → Option Rat
  | .bool b => some (if b then 1 else 0)
  | .int n => some (n : Rat)
  | .float x => some x
  | .str s => pyFloatOfStr s
  | .none => Option.none

/-- `ARCHIVE_POLICY_CHOICES = ChoiceEnum(('immediate', 'post-close', 'never'))`:
three distinct codes. -/
inductive ArchivePolicy where
  | immediate
  | post_close
  | never
deriving DecidableEq, Repr

/-- `OPTION_TYPE_CHOICES`: the twelve question option types of `models.py`. -/
inductive OptionType where
  | char
  | email
  | photo
  | video
  | location
  | integer
  | float
  | bool
  | text
  | select
  | radio
  | checkbox
deriving DecidableEq, Repr

/-- The `Survey` model fields the verified operations read (`models.py`). -/
structure Survey where
  id : Nat
  slug : String
  require_login : Bool
  allow_multiple_submissions : Bool
  archive_policy : ArchivePolicy
  starts_at : Int
  ends_at : Option Int
  is_published : Bool
deriving DecidableEq, Repr

/-- `Survey.is_open` (`models.py` lines 57-63): a property computed at the
current time `now`.  `if self.ends_at:` tests presence, since a Python
`datetime` is always truthy. -/
def Survey.is_open (s : Survey) (now : Int) : Bool :=
  match s.ends_at with
  | some e => decide (s.starts_at ≤ now) && decide (now < e)
  | none => decide (s.starts_at ≤ now)

/-- The row filter of `LiveSurveyManager.get_query_set` (`models.py` lines
18-26): `is_published=True, starts_at__lte=now`, and
`~Q(archive_policy=NEVER) | Q(ends_at__isnull=True) | Q(ends_at__gt=now)`. -/
def liveFilter (now : Int) (s : Survey) : Bool :=
  s.is_published && decide (s.starts_at ≤ now) &&
    (!(s.archive_policy == ArchivePolicy.never) || s.ends_at.isNone ||
      (match s.ends_at with
       | some e => decide (now < e)
       | none => false))

/-- The queryset returned by the manager `Survey.live` over a table `db` of
surveys, at time `now`. -/
def liveSurveys (now : Int) (db : List Survey) : List Survey :=
  db.filter (liveFilter now)

/-- The `Submission` model fields the verified operations read
(`models.py` lines 130-139): the survey foreign key, the nullable user
foreign key, the session key and the moderation flag. -/
structure SubmissionRow where
  survey_id : Nat
  user_id : Option Nat
  session_key : String
  is_public : Bool
deriving DecidableEq, Repr

/-- The requester identity a view passes into the model layer:
`request.user` is either an authenticated `User` or Django's anonymous user.
`is_authenticated()` and `is_anonymous()` are its two (method) predicates. -/
inductive Requester where
  | anon
  | auth (uid : Nat)
deriving DecidableEq, Repr

/-- `user.is_authenticated()`. -/
def Requester.is_authenticated : Requester → Bool
  | .anon => false
  | .auth _ => true

/-- `user.is_anonymous()`. -/
def Requester.is_anonymous : Requester → Bool
  | .anon => true
  | .auth _ => false

/-- `Survey.submissions_for(user, session_key)` (`models.py` lines 65-74)
over a table `db` of submissions: `Q(survey=self)`, narrowed by
`Q(user=user)` when authenticated, else by `Q(session_key=session_key)` when
the session key is truthy, else `Submission.objects.none()`. -/
def submissions_for (surveyId : Nat) (db : List SubmissionRow)
    (user : Requester) (session_key : String) : List SubmissionRow :=
  match user with
  | .auth uid =>
    db.filter (fun r => r.survey_id == surveyId && r.user_id == some uid)
  | .anon =>
    if session_key != "" then
      db.filter (fun r => r.survey_id == surveyId && r.session_key == session_key)
    else []

/-- `Survey.public_submissions()` (`models.py` lines 76-81) over the
survey's `submission_set` `subs`, at time `now`. -/
def public_submissions (now : Int) (s : Survey)
    (subs : List SubmissionRow) : List SubmissionRow :=
  if s.archive_policy == ArchivePolicy.never ||
      (s.archive_policy == ArchivePolicy.post_close && s.is_open now) then
    []
  else
    subs.filter (fun r => r.is_public)

/-- The `Question` model fields the `Answer.value` accessor reads
(`models.py` lines 107-116). -/
structure Question where
  fieldname : String
  option_type : OptionType
deriving DecidableEq, Repr

/-- The `Answer` model columns (`models.py` lines 161-169).  Columns are
`PyValue` slots because Python attribute assignment stores whatever value
the code computes; Django only enforces column types at save time. -/
structure Answer where
  text_answer : PyValue
  integer_answer : PyValue
  float_answer : PyValue
  boolean_answer : PyValue
  latitude : PyValue
  longitude : PyValue
deriving DecidableEq, Repr

/-- The getter of the `Answer.value` property (`models.py` lines 172-180):
dispatch on the parent question's `option_type`. -/
def Answer.value_get (q : Question) (a : Answer) : PyValue :=
  if q.option_type = OptionType.bool then a.boolean_answer
  else if q.option_type = OptionType.float then a.float_answer
  else if q.option_type = OptionType.integer then a.integer_answer
  else a.text_answer

/-- The setter of the `Answer.value` property (`models.py` lines 182-191):
coerce the assigned value into the column selected by `option_type`.  A
failing coercion (`float('x')`, `int(None)`, ...) raises; the model folds
Python's `ValueError`/`TypeError` for failed coercions into one error. -/
def Answer.value_set (q : Question) (a : Answer) (v : PyValue) :
    Except PyError Answer :=
  if q.option_type = OptionType.bool then
    Except.ok { a with boolean_answer := PyValue.bool v.truthy }
  else if q.option_type = OptionType.float then
    match pyFloat v with
    | some x => Except.ok { a with float_answer := PyValue.float x }
    | Option.none => Except.error PyError.valueError
  else if q.option_type = OptionType.integer then
    match pyInt v with
    | some n => Except.ok { a with integer_answer := PyValue.int n }
    | Option.none => Except.error PyError.valueError
  else
    Except.ok { a with text_answer := v }

/-- The coercion the round-trip claim describes: `bool()` for bool
questions, `float()` for float, `int()` for integer, the value itself for
every other option type. -/
def pyCoerce (t : OptionType) (v : PyValue) : Option PyValue :=
  if t = OptionType.bool then some (PyValue.bool v.truthy)
  else if t = OptionType.float then (pyFloat v).map PyValue.float
  else if t = OptionType.integer then (pyInt v).map PyValue.int
  else some v

/-- The column the claim names as authoritative for each option type:
`boolean_answer` for bool, `float_answer` for float, `integer_answer` for
integer, `text_answer` for all other option types. -/
def selectedColumn (t : OptionType) (a : Answer) : PyValue :=
  if t = OptionType.bool then a.boolean_answer
  else if t = OptionType.float then a.float_answer
  else if t = OptionType.integer then a.integer_answer
  else a.text_answer

/-- One row of a submission's `answer_set`, carrying the data
`get_answer_dict` reads: the parent question's `fieldname` and the typed
`value` of the answer. -/
structure AnswerRec where
  fieldname : String
  value : PyValue
deriving DecidableEq, Repr

/-- Assignment `d[k] = v` into a Python dict: overwrite an existing binding
in place, else append a new one. -/
def dictUpsert (d : List (String × PyValue)) (k : String) (v : PyValue) :
    List (String × PyValue) :=
  if d.any (fun p => p.1 = k) then
    d.map (fun p => if p.1 = k then (k, v) else p)
  else d ++ [(k, v)]

/-- `dict((a.question.fieldname, a.value) for a in answers)`: a dict built
left to right, later duplicates overwriting earlier ones. -/
def buildAnswerDict (answers : List AnswerRec) : List (String × PyValue) :=
  answers.foldl (fun d a => dictUpsert d a.fieldname a.value) []

/-- Lookup `d[k]` in the modelled dict. -/
def dictLookup : List (String × PyValue) → String → Option PyValue
  | [], _ => Option.none
  | p :: rest, k => if p.1 = k then some p.2 else dictLookup rest k

/-- The in-memory state of one `Submission` instance that
`get_answer_dict`/`__getattr__` touch: the stored answers, the
`self.__dict__['_answer_dict']` cache slot, and a count of the answer-set
database queries issued so far. -/
structure SubmissionState where
  answer_set : List AnswerRec
  answer_dict_cache : Option (List (String × PyValue))
  queries : Nat
deriving DecidableEq, Repr

/-- `Submission.get_answer_dict` (`models.py` lines 143-151): return the
cached dict when `'_answer_dict'` is in `self.__dict__`, else query the
answer set, build the dict, cache and return it. -/
def get_answer_dict (s : SubmissionState) :
    List (String × PyValue) × SubmissionState :=
  match s.answer_dict_cache with
  | some d => (d, s)
  | Option.none =>
    let d := buildAnswerDict s.answer_set
    (d, { s with answer_dict_cache := some d, queries := s.queries + 1 })

/-- `Submission.__getattr__` (`models.py` lines 153-158), which Python
invokes only for names that are not real attributes of the instance: look
the name up in the answer dict, raising `AttributeError` on a miss. -/
def submissionGetattr (s : SubmissionState) (k : String) :
    Except PyError (PyValue × SubmissionState) :=
  let p := get_answer_dict s
  match dictLookup p.1 k with
  | some v => Except.ok (v, p.2)
  | Option.none => Except.error PyError.attributeError

/-- Pairwise-distinct fieldnames across a submission's answers, the shape
guaranteed by the `(fieldname, survey)` uniqueness constraint on
`Question`. -/
def distinctFieldnames : List AnswerRec → Bool
  | [] => true
  | a :: rest =>
    rest.all (fun b => b.fieldname != a.fieldname) && distinctFieldnames rest

/-- The pieces of the Django request object `_survey_submit` reads: the
requester identity, whether a session mechanism is available
(`hasattr(request, 'session')`), its key, and the request path. -/
structure Request where
  user : Requester
  has_session : Bool
  session_key : String
  path : String
deriving DecidableEq, Repr

/-- The responses `_survey_submit` can produce (`views.py` lines 11-35):
redirects to the results and login pages, the cookies-required 403, the
already-submitted page, the post-save redirect, and the re-rendered form. -/
inductive HttpResponse where
  | redirectResults (slug : String)
  | redirectLogin (next : String)
  | forbiddenCookies
  | alreadySubmitted (slug : String)
  | thanksRedirect (slug : String)
  | showForm (slug : String)
deriving DecidableEq, Repr

/-- A Python call expression on a `bool` value.  `Survey.is_open` is a
`@property` (`models.py` line 57), so `survey.is_open` evaluates to a plain
`bool`, and the call `survey.is_open()` on `views.py` line 12 raises
`TypeError` (a `bool` is not callable). -/
def callBool (_b : Bool) : Except PyError Bool :=
  Except.error PyError.typeError

/-- `views._survey_submit` (`views.py` lines 11-35) at time `now`, over the
submissions table `db`, with `formsValid` standing for the external form
layer's `all(form.is_valid() for form in forms)`. -/
def surveySubmit (now : Int) (survey : Survey) (db : List SubmissionRow)
    (req : Request) (formsValid : Bool) : Except PyError HttpResponse := do
  let isOpen ← callBool (survey.is_open now)
  if !isOpen then
    return HttpResponse.redirectResults survey.slug
  else if survey.require_login && req.user.is_anonymous then
    return HttpResponse.redirectLogin req.path
  else if !req.has_session then
    return HttpResponse.forbiddenCookies
  else if !survey.allow_multiple_submissions &&
      ((submissions_for survey.id db req.user req.session_key).length != 0) then
    return HttpResponse.alreadySubmitted survey.slug
  else if formsValid then
    return HttpResponse.thanksRedirect survey.slug
  else
    return HttpResponse.showForm survey.slug

/-- Claim C3: for every survey S and time T, `is_open` holds iff
`starts_at ≤ T` and either `ends_at` is null or `T < ends_at`. -/
theorem is_open_characterization :
    ∀ (now : Int) (s : Survey),
      s.is_open now = true ↔
        (s.starts_at ≤ now ∧
          (s.ends_at = Option.none ∨ ∃ e, s.ends_at = some e ∧ now < e)) := by
  intro now s
  cases h : s.ends_at with
  | none => simp [Survey.is_open, h]
  | some e =>
    simp only [Survey.is_open, h, Bool.and_eq_true, decide_eq_true_eq,
      Option.some.injEq, reduceCtorEq, false_or]
    constructor
    · rintro ⟨h1, h2⟩
      exact ⟨h1, e, rfl, h2⟩
    · rintro ⟨h1, e', he', h2⟩
      cases he'
      exact ⟨h1, h2⟩

/-- Claim C2: for every survey S and time T, S is returned by the live-survey
manager's query iff S is in the table, is published, has `starts_at ≤ T`, and
its archive policy is not NEVER or its `ends_at` is null or `ends_at > T`. -/
theorem live_survey_characterization :
    ∀ (now : Int) (db : List Survey) (s : Survey),
      s ∈ liveSurveys now db ↔
        (s ∈ db ∧ s.is_published = true ∧ s.starts_at ≤ now ∧
          (s.archive_policy ≠ ArchivePolicy.never ∨ s.ends_at = Option.none ∨
            ∃ e, s.ends_at = some e ∧ e > now)) := by
  intro now db s
  cases he : s.ends_at with
  | none =>
    simp [liveSurveys, List.mem_filter, liveFilter, he, and_assoc]
  | some e =>
    simp only [liveSurveys, List.mem_filter, liveFilter, he, Bool.and_eq_true,
      Bool.or_eq_true, decide_eq_true_eq, Bool.not_eq_true', beq_eq_false_iff_ne,
      Option.isNone_some, Bool.false_eq_true, or_false, Option.some.injEq,
      reduceCtorEq, false_or, gt_iff_lt, exists_eq_left']
    tauto

/-- Claim C1: `public_submissions()` is empty when the archive policy is
NEVER, and when it is POST_CLOSE while the survey is open; in every other
case a submission is in the result exactly when it is in the survey's
submission set with `is_public` true. -/
theorem public_submissions_visibility :
    ∀ (now : Int) (s : Survey) (subs : List SubmissionRow),
      (s.archive_policy = ArchivePolicy.never →
        public_submissions now s subs = []) ∧
      (s.archive_policy = ArchivePolicy.post_close → s.is_open now = true →
        public_submissions now s subs = []) ∧
      (∀ r, r ∈ public_submissions now s subs ↔
        (s.archive_policy ≠ ArchivePolicy.never ∧
          ¬(s.archive_policy = ArchivePolicy.post_close ∧ s.is_open now = true) ∧
          r ∈ subs ∧ r.is_public = true)) := by
  intro now s subs
  refine ⟨?_, ?_, ?_⟩
  · intro h
    simp [public_submissions, h]
  · intro h ho
    simp [public_submissions, h, ho]
  · intro r
    cases hap : s.archive_policy with
    | never => simp [public_submissions, hap]
    | immediate => simp [public_submissions, hap, List.mem_filter]
    | post_close =>
      cases ho : s.is_open now with
      | true => simp [public_submissions, hap, ho]
      | false => simp [public_submissions, hap, ho, List.mem_filter]

/-- Witness for C1 at a concrete closed-policy survey: with
`archive_policy = NEVER`, `public_submissions` is empty even though the one
submission has `is_public = true`. -/
theorem public_submissions_visibility_witness :
    public_submissions 5
      { id := 1, slug := "s", require_login := false,
        allow_multiple_submissions := false,
        archive_policy := ArchivePolicy.never, starts_at := 0,
        ends_at := Option.none, is_published := true }
      [{ survey_id := 1, user_id := Option.none, session_key := "",
         is_public := true }] = [] :=
  (public_submissions_visibility 5
    { id := 1, slug := "s", require_login := false,
      allow_multiple_submissions := false,
      archive_policy := ArchivePolicy.never, starts_at := 0,
      ends_at := Option.none, is_published := true }
    [{ survey_id := 1, user_id := Option.none, session_key := "",
       is_public := true }]).1 rfl

/-- Claim C6: `submissions_for` returns the survey's submissions matched by
user when the requester is authenticated, else by session key when the key is
non-empty, else nothing. -/
theorem submissions_for_characterization :
    ∀ (sid : Nat) (db : List SubmissionRow) (u : Requester) (k : String)
      (r : SubmissionRow),
      r ∈ submissions_for sid db u k ↔
        (r ∈ db ∧ r.survey_id = sid ∧
          ((∃ uid, u = Requester.auth uid ∧ r.user_id = some uid) ∨
            (u = Requester.anon ∧ k ≠ "" ∧ r.session_key = k))) := by
  intro sid db u k r
  cases u with
  | auth uid =>
    simp only [submissions_for, List.mem_filter, Bool.and_eq_true, beq_iff_eq]
    constructor
    · rintro ⟨hmem, hsid, huid⟩
      exact ⟨hmem, hsid, Or.inl ⟨uid, rfl, huid⟩⟩
    · rintro ⟨hmem, hsid, h | h⟩
      · rcases h with ⟨uid', huid', hu⟩
        cases huid'
        exact ⟨hmem, hsid, hu⟩
      · exact absurd h.1 (by simp)
  | anon =>
    by_cases hk : k = ""
    · subst hk
      simp [submissions_for]
    · have hkb : (k != "") = true := by simpa using hk
      simp only [submissions_for, hkb, if_true, List.mem_filter,
        Bool.and_eq_true, beq_iff_eq]
      constructor
      · rintro ⟨hmem, hsid, hkey⟩
        exact ⟨hmem, hsid, Or.inr ⟨by trivial, hk, hkey⟩⟩
      · rintro ⟨hmem, hsid, h | h⟩
        · rcases h with ⟨uid', huid', _⟩
          exact absurd huid' (by simp)
        · exact ⟨hmem, hsid, h.2.2⟩

/-- Claim C4: for every answer, question and value accepted by the option
type's coercion, writing through `Answer.value` then reading back yields the
coerced value, and the getter reads only the column selected by the option
type. -/
theorem answer_value_roundtrip :
    (∀ (q : Question) (a : Answer) (v w : PyValue),
      pyCoerce q.option_type v = some w →
        ∃ a2, Answer.value_set q a v = Except.ok a2 ∧
          Answer.value_get q a2 = w) ∧
    (∀ (q : Question) (a b : Answer),
      selectedColumn q.option_type a = selectedColumn q.option_type b →
        Answer.value_get q a = Answer.value_get q b) := by
  constructor
  · intro q a v w h
    by_cases hb : q.option_type = OptionType.bool
    · simp only [pyCoerce, hb, if_true, reduceIte, Option.some.injEq] at h
      exact ⟨{ a with boolean_answer := PyValue.bool v.truthy },
        by simp [Answer.value_set, hb], by simp [Answer.value_get, hb, h]⟩
    · by_cases hf : q.option_type = OptionType.float
      · rw [pyCoerce, if_neg (by simp [hf]), if_pos hf] at h
        rcases Option.map_eq_some'.mp h with ⟨x, hx, rfl⟩
        exact ⟨{ a with float_answer := PyValue.float x },
          by simp [Answer.value_set, hb, hf, hx],
          by simp [Answer.value_get, hb, hf]⟩
      · by_cases hi : q.option_type = OptionType.integer
        · rw [pyCoerce, if_neg (by simp [hi]), if_neg (by simp [hi]),
            if_pos hi] at h
          rcases Option.map_eq_some'.mp h with ⟨n, hn, rfl⟩
          exact ⟨{ a with integer_answer := PyValue.int n },
            by simp [Answer.value_set, hb, hf, hi, hn],
            by simp [Answer.value_get, hb, hf, hi]⟩
        · rw [pyCoerce, if_neg hb, if_neg hf, if_neg hi] at h
          cases h
          exact ⟨{ a with text_answer := v },
            by simp [Answer.value_set, hb, hf, hi],
            by simp [Answer.value_get, hb, hf, hi]⟩
  · intro q a b h
    by_cases hb : q.option_type = OptionType.bool
    · simpa [Answer.value_get, selectedColumn, hb] using h
    · by_cases hf : q.option_type = OptionType.float
      · simpa [Answer.value_get, selectedColumn, hb, hf] using h
      · by_cases hi : q.option_type = OptionType.integer
        · simpa [Answer.value_get, selectedColumn, hb, hf, hi] using h
        · simpa [Answer.value_get, selectedColumn, hb, hf, hi] using h

/-- A sample integer question, as in the spec's scenario
`Question(option_type=integer).Answer.value = "42"`. -/
def qInt : Question :=
  { fieldname := "age", option_type := OptionType.integer }

/-- A sample answer with all columns empty. -/
def ans0 : Answer :=
  { text_answer := PyValue.str "", integer_answer := PyValue.none,
    float_answer := PyValue.none, boolean_answer := PyValue.none,
    latitude := PyValue.none, longitude := PyValue.none }

/-- Witness for C4: writing the string "42" to an integer-typed answer and
reading it back yields the integer 42. -/
theorem answer_value_roundtrip_witness :
    ∃ a2, Answer.value_set qInt ans0 (PyValue.str "42") = Except.ok a2 ∧
      Answer.value_get qInt a2 = PyValue.int 42 :=
  answer_value_roundtrip.1 qInt ans0 (PyValue.str "42") (PyValue.int 42)
    (by decide)

/-- Claim C8: a write through `Answer.value` touches only the column
selected by the question's option type; the other three typed columns and
the latitude/longitude columns keep whatever they held before. -/
theorem answer_value_set_frame :
    ∀ (q : Question) (a : Answer) (v : PyValue) (a2 : Answer),
      Answer.value_set q a v = Except.ok a2 →
        (q.option_type ≠ OptionType.bool →
          a2.boolean_answer = a.boolean_answer) ∧
        (q.option_type ≠ OptionType.float →
          a2.float_answer = a.float_answer) ∧
        (q.option_type ≠ OptionType.integer →
          a2.integer_answer = a.integer_answer) ∧
        ((q.option_type = OptionType.bool ∨ q.option_type = OptionType.float ∨
            q.option_type = OptionType.integer) →
          a2.text_answer = a.text_answer) ∧
        a2.latitude = a.latitude ∧ a2.longitude = a.longitude := by
  intro q a v a2 h
  by_cases hb : q.option_type = OptionType.bool
  · rw [Answer.value_set, if_pos hb] at h
    cases h
    simp [hb]
  · by_cases hf : q.option_type = OptionType.float
    · rw [Answer.value_set, if_neg hb, if_pos hf] at h
      cases hx : pyFloat v with
      | none => rw [hx] at h; cases h
      | some x =>
        rw [hx] at h
        cases h
        simp [hb, hf]
    · by_cases hi : q.option_type = OptionType.integer
      · rw [Answer.value_set, if_neg hb, if_neg hf, if_pos hi] at h
        cases hn : pyInt v with
        | none => rw [hn] at h; cases h
        | some n =>
          rw [hn] at h
          cases h
          simp [hb, hf, hi]
      · rw [Answer.value_set, if_neg hb, if_neg hf, if_neg hi] at h
        cases h
        simp [hb, hf, hi]

/-- A sample boolean question. -/
def qBool : Question :=
  { fieldname := "ok", option_type := OptionType.bool }

/-- A sample answer holding stale data from a previous integer-typed write. -/
def ansStale : Answer :=
  { text_answer := PyValue.str "x", integer_answer := PyValue.int 7,
    float_answer := PyValue.none, boolean_answer := PyValue.none,
    latitude := PyValue.none, longitude := PyValue.none }

/-- The answer produced by writing `0` through `value` on `ansStale` under a
boolean question: only `boolean_answer` changes. -/
def ansAfter : Answer :=
  { ansStale with boolean_answer := PyValue.bool false }

/-- Witness for C8: the boolean write above leaves the stale
`integer_answer`, the `text_answer` and the latitude untouched. -/
theorem answer_value_set_frame_witness :
    ansAfter.integer_answer = ansStale.integer_answer ∧
      ansAfter.text_answer = ansStale.text_answer ∧
      ansAfter.latitude = ansStale.latitude :=
  ⟨(answer_value_set_frame qBool ansStale (PyValue.int 0) ansAfter
      (by rfl)).2.2.1 (by decide),
   (answer_value_set_frame qBool ansStale (PyValue.int 0) ansAfter
      (by rfl)).2.2.2.1 (Or.inl rfl),
   (answer_value_set_frame qBool ansStale (PyValue.int 0) ansAfter
      (by rfl)).2.2.2.2.1⟩

/-- Claim C9: a second `get_answer_dict()` call on the same instance
returns the same dict, leaves the state unchanged, and issues no further
answer-set query. -/
theorem get_answer_dict_memoized :
    ∀ (s : SubmissionState),
      (get_answer_dict (get_answer_dict s).2).1 = (get_answer_dict s).1 ∧
      (get_answer_dict (get_answer_dict s).2).2 = (get_answer_dict s).2 ∧
      (get_answer_dict (get_answer_dict s).2).2.queries =
        (get_answer_dict s).2.queries := by
  intro s
  cases h : s.answer_dict_cache with
  | some d => simp [get_answer_dict, h]
  | none => simp [get_answer_dict, h]

/-- Looking up in a dict after `d[k2] = v`: hit on `k2`, otherwise
unchanged. -/
theorem dictLookup_map_ne (d : List (String × PyValue)) (k2 : String)
    (v : PyValue) (k : String) (hk : k ≠ k2) :
    dictLookup (d.map (fun p => if p.1 = k2 then (k2, v) else p)) k =
      dictLookup d k := by
  induction d with
  | nil => simp [dictLookup]
  | cons p rest ih =>
    by_cases hp : p.1 = k2
    · have hne : ¬(k2 = k) := fun he => hk he.symm
      simp [dictLookup, hp, hne, ih]
    · simp only [List.map_cons, if_neg hp]
      by_cases hpk : p.1 = k
      · simp [dictLookup, hpk]
      · simp [dictLookup, hpk, ih]

/-- Overwriting the binding of a present key makes lookup return the new
value. -/
theorem dictLookup_map_eq (d : List (String × PyValue)) (k2 : String)
    (v : PyValue) (ha : d.any (fun p => p.1 = k2) = true) :
    dictLookup (d.map (fun p => if p.1 = k2 then (k2, v) else p)) k2 =
      some v := by
  induction d with
  | nil => simp at ha
  | cons p rest ih =>
    by_cases hp : p.1 = k2
    · simp [dictLookup, hp]
    · simp only [List.any_cons, Bool.or_eq_true, decide_eq_true_eq] at ha
      rcases ha with h | h
      · exact absurd h hp
      · simp [dictLookup, hp, ih h]

/-- Lookup distributes over dict concatenation. -/
theorem dictLookup_append (d e : List (String × PyValue)) (k : String) :
    dictLookup (d ++ e) k =
      match dictLookup d k with
      | some v => some v
      | Option.none => dictLookup e k := by
  induction d with
  | nil => simp [dictLookup]
  | cons p rest ih =>
    by_cases hp : p.1 = k
    · simp [dictLookup, hp]
    · simp [dictLookup, hp, ih]

/-- A key no entry carries looks up to nothing. -/
theorem dictLookup_of_any_false (d : List (String × PyValue)) (k : String)
    (h : d.any (fun p => p.1 = k) = false) :
    dictLookup d k = Option.none := by
  induction d with
  | nil => simp [dictLookup]
  | cons p rest ih =>
    simp only [List.any_cons, Bool.or_eq_false_iff, decide_eq_false_iff_not] at h
    simp [dictLookup, h.1, ih h.2]

/-- Lookup after a dict assignment: the assigned key reads the new value,
every other key is unaffected. -/
theorem dictLookup_upsert (d : List (String × PyValue)) (k2 : String)
    (v : PyValue) (k : String) :
    dictLookup (dictUpsert d k2 v) k =
      if k = k2 then some v else dictLookup d k := by
  by_cases hk : k = k2
  · subst hk
    rw [dictUpsert]
    by_cases ha : d.any (fun p => p.1 = k) = true
    · rw [if_pos ha, dictLookup_map_eq d k v ha, if_pos rfl]
    · rw [if_neg ha, dictLookup_append,
        dictLookup_of_any_false d k (Bool.eq_false_iff.mpr ha)]
      simp [dictLookup]
  · rw [dictUpsert]
    by_cases ha : d.any (fun p => p.1 = k2) = true
    · rw [if_pos ha, dictLookup_map_ne d k2 v k hk, if_neg hk]
    · have hk2 : ¬(k2 = k) := fun h => hk h.symm
      rw [if_neg ha, dictLookup_append, if_neg hk]
      cases hd : dictLookup d k with
      | some w => rfl
      | none => simp [dictLookup, hk2]

/-- Folding in answers none of which carry the key leaves its lookup
unchanged. -/
theorem foldl_dict_lookup_ne (answers : List AnswerRec) :
    ∀ (d : List (String × PyValue)) (k : String),
      (∀ a ∈ answers, a.fieldname ≠ k) →
      dictLookup
          (answers.foldl (fun d a => dictUpsert d a.fieldname a.value) d) k =
        dictLookup d k := by
  induction answers with
  | nil => intro d k _; rfl
  | cons a rest ih =>
    intro d k h
    simp only [List.foldl_cons]
    rw [ih _ k (fun b hb => h b (List.mem_cons_of_mem a hb)),
      dictLookup_upsert,
      if_neg (fun he => h a (List.mem_cons_self a rest) he.symm)]

/-- Folding in answers with pairwise-distinct fieldnames binds each
fieldname to its answer's value. -/
theorem foldl_dict_lookup_found (answers : List AnswerRec) :
    ∀ (d : List (String × PyValue)) (k : String) (a : AnswerRec),
      distinctFieldnames answers = true → a ∈ answers → a.fieldname = k →
      dictLookup
          (answers.foldl (fun d a => dictUpsert d a.fieldname a.value) d) k =
        some a.value := by
  induction answers with
  | nil =>
    intro d k a _ hmem _
    cases hmem
  | cons b rest ih =>
    intro d k a hdist hmem hk
    simp only [distinctFieldnames, Bool.and_eq_true, List.all_eq_true,
      bne_iff_ne] at hdist
    obtain ⟨hall, hrest⟩ := hdist
    rcases List.mem_cons.mp hmem with rfl | hmem2
    · simp only [List.foldl_cons]
      rw [foldl_dict_lookup_ne rest _ k
        (fun c hc => hk ▸ hall c hc), dictLookup_upsert, if_pos hk.symm]
    · simp only [List.foldl_cons]
      exact ih _ k a hrest hmem2 hk

/-- Claim C10: on a freshly loaded submission whose answers carry distinct
fieldnames, attribute fallback returns the value of the answer whose
question fieldname is the requested name, and raises `AttributeError` when
no answer carries it. -/
theorem submission_getattr_characterization :
    ∀ (answers : List AnswerRec) (n : Nat) (k : String),
      distinctFieldnames answers = true →
      ((∀ a, a ∈ answers → a.fieldname = k →
          ∃ s2,
            submissionGetattr
                { answer_set := answers, answer_dict_cache := Option.none,
                  queries := n } k =
              Except.ok (a.value, s2)) ∧
        ((∀ a, a ∈ answers → a.fieldname ≠ k) →
          submissionGetattr
              { answer_set := answers, answer_dict_cache := Option.none,
                queries := n } k =
            Except.error PyError.attributeError)) := by
  intro answers n k hdist
  constructor
  · intro a hmem hk
    refine ⟨{ answer_set := answers,
              answer_dict_cache := some (buildAnswerDict answers),
              queries := n + 1 }, ?_⟩
    rw [submissionGetattr]
    simp only [get_answer_dict]
    rw [show dictLookup (buildAnswerDict answers) k = some a.value from
      foldl_dict_lookup_found answers [] k a hdist hmem hk]
  · intro h
    rw [submissionGetattr]
    simp only [get_answer_dict]
    rw [show dictLookup (buildAnswerDict answers) k = Option.none from by
      rw [buildAnswerDict, foldl_dict_lookup_ne answers [] k h]; rfl]

/-- A sample freshly loaded submission with one answer. -/
def subW : SubmissionState :=
  { answer_set := [{ fieldname := "age", value := PyValue.int 30 }],
    answer_dict_cache := Option.none, queries := 0 }

/-- Witness for C10: on the sample submission, `s.age` resolves to the
stored answer value and `s.nope` raises `AttributeError`. -/
theorem submission_getattr_witness :
    (∃ s2, submissionGetattr subW "age" = Except.ok (PyValue.int 30, s2)) ∧
      submissionGetattr subW "nope" = Except.error PyError.attributeError :=
  ⟨(submission_getattr_characterization subW.answer_set 0 "age"
      (by decide)).1 ({ fieldname := "age", value := PyValue.int 30 })
      (by simp [subW]) rfl,
    (submission_getattr_characterization subW.answer_set 0 "nope"
      (by decide)).2 (by intro a ha; simp [subW] at ha; simp [ha])⟩

/-- A published survey already past its end date. -/
def closedSurvey : Survey :=
  { id := 2, slug := "poll", require_login := false,
    allow_multiple_submissions := false,
    archive_policy := ArchivePolicy.immediate, starts_at := 0,
    ends_at := some 10, is_published := true }

/-- An anonymous request with a working session. -/
def reqAnon : Request :=
  { user := Requester.anon, has_session := true, session_key := "sess1",
    path := "/poll/" }

/-- Claim C7 (code bug): a POST to a survey that is not open does not get
the results-page redirect the spec describes; `survey.is_open()` on
`views.py` line 12 calls the value of the `is_open` property, a `bool`, so
the view raises `TypeError` before reaching the redirect. -/
theorem survey_submit_closed_raises :
    closedSurvey.is_open 20 = false ∧
      surveySubmit 20 closedSurvey [] reqAnon true =
        Except.error PyError.typeError :=
  ⟨rfl, rfl⟩

/-- An open published survey that disallows multiple submissions. -/
def openSurvey : Survey :=
  { id := 3, slug := "quiz", require_login := false,
    allow_multiple_submissions := false,
    archive_policy := ArchivePolicy.immediate, starts_at := 0,
    ends_at := Option.none, is_published := true }

/-- A prior submission of `openSurvey` by user 7. -/
def priorDb : List SubmissionRow :=
  [{ survey_id := 3, user_id := some 7, session_key := "",
     is_public := true }]

/-- A request by authenticated user 7, who already submitted once. -/
def reqAuth : Request :=
  { user := Requester.auth 7, has_session := true, session_key := "sess2",
    path := "/quiz/" }

/-- Claim C5 (code bug): the requester has exactly one prior submission and
the survey is open, yet the POST is not answered with the already-submitted
response: the `survey.is_open()` call on `views.py` line 12 raises
`TypeError` before the duplicate check runs.  A requester with zero prior
submissions hits the same `TypeError` instead of being allowed to submit. -/
theorem survey_submit_dedup_raises :
    (submissions_for openSurvey.id priorDb reqAuth.user
        reqAuth.session_key).length = 1 ∧
      openSurvey.is_open 20 = true ∧
      surveySubmit 20 openSurvey priorDb reqAuth true =
        Except.error PyError.typeError ∧
      surveySubmit 20 openSurvey [] reqAuth true =
        Except.error PyError.typeError :=
  ⟨rfl, rfl, rfl, rfl⟩

end Crowdsourcing
